import Mathlib

set_option allowUnsafeReducibility true
attribute [local semireducible] Rat.add Rat.mul Rat.div Rat.sub Rat.neg Rat.inv
  Rat.ofScientific

/-!
Verification of the Thermostat-Controller repository (thermopi).

Shallow embedding of the control and message-routing engine:
  - thermostat.py   : Thermostat state machine, rule evaluation, hysteresis
  - lan_network.py  : LAN text command decoding
  - xbee_network.py : radio binary sensor-frame decoding
  - local_stores.py : durable FIFO queue backed by sqlite
  - messaging.py    : Command and DataPacket shapes

Machine floats of the source are modelled as rationals; the control logic
only compares and adds temperatures, so the order structure is what matters.
Side effects (GPIO writes, sockets, logging) are out of scope per the spec;
the messages handed to the event handler are modelled explicitly.
-/

namespace ThermoPi

/-! ## Constants from thermostat.py -/

def CMD_THERMO_POWER : ℕ := 1
def CMD_OVERRIDE : ℕ := 2
def CMD_RULE_CHANGE : ℕ := 3
def CMD_SENSOR_DATA : ℕ := 4
def CMD_TIME_REQUEST : ℕ := 5
def CMD_STATUS : ℕ := 6
def CMD_SHUTDOWN : ℕ := 7

def STATUS_OFF : ℕ := 2
def STATUS_ON : ℕ := 3
def STATUS_GET : ℕ := 4

/-- RELAY_ON is the boolean True in thermostat.py; set_relay_status maps it to
closing the relay, that is heating on. -/
def RELAY_ON : Bool := true

def RELAY_OFF : Bool := false

def THERMOSTAT_ON : Bool := RELAY_ON

def THERMOSTAT_OFF : Bool := RELAY_OFF

def MIN_TEMPERATURE : ℚ := 10

def MAX_TEMPERATURE : ℚ := 25

def TEMPERATURE_BUFFER : ℚ := 0.15

def ABSOLUTE_ZERO : ℚ := -273

/-! ## Constants from display.py (the display message vocabulary) -/

def LED_ON : ℕ := 1
def LED_OFF : ℕ := 0
def BTN_ON : ℕ := 1
def BTN_OFF : ℕ := 0
def SET_STATUS : ℕ := 0
def PROGRAM_BTN : ℕ := 0
def RELAY_LED : ℕ := 1
def OVER_BTN : ℕ := 2
def OVER_SCALE : ℕ := 4
def INSIDE_TEMP : ℕ := 5
def OUTSIDE_TEMP : ℕ := 6
def SETPOINT_TEMP : ℕ := 7
def POWER_LED : ℕ := 8

/-- Modelled from the spec: simple_types.py (defining RULE_DAYS) is absent from
src/.  The spec gives day selectors Mon..Sun with weekday 0 = Monday (section 4.1
clock reply and section 3 Rule), plus Weekdays, Weekends and Everyday.  The codes
0..6 for Monday..Sunday are forced by the comparisons in thermostat.py
(weekday from time.localtime, weekday less-or-equal Friday, greater-or-equal
Saturday); the three group selectors get codes outside 0..6. -/
def MONDAY : ℕ := 0
def TUESDAY : ℕ := 1
def WEDNESDAY : ℕ := 2
def THURSDAY : ℕ := 3
def FRIDAY : ℕ := 4
def SATURDAY : ℕ := 5
def SUNDAY : ℕ := 6
def WEEKDAYS : ℕ := 7
def WEEKENDS : ℕ := 8
def EVERYDAY : ℕ := 9

/-! ## Data model -/

/-- messaging.Command: command, subcommand and data fields; subcommand and data
may be Python None, hence Option. -/
structure Command where
  command : ℕ
  subcommand : Option ℕ
  data : Option ℚ
deriving DecidableEq

/-- One entry of config.programming_rules: day selector code, hour threshold
(key time) and target temperature. -/
structure Rule where
  day : ℕ
  time : ℚ
  temperature : ℚ
deriving DecidableEq

/-- Mutable fields of the Thermostat object that the handlers touch. -/
structure ThermoState where
  thermo_on : Bool
  relay_on : Bool
  override_on : Bool
  override_temp : ℚ
  setpoint : ℚ
  temperature : ℚ
  indoor_temp_str : String
  setpoint_str : String
deriving DecidableEq

/-- Payload of a display SET_STATUS command (int, float or string data). -/
inductive DispValue where
  | nat (n : ℕ)
  | q (x : ℚ)
  | str (s : String)
deriving DecidableEq

/-- Messages handed to the event handler.  displayTx models
DisplayTxMessage(Command(SET_STATUS, field, value)); lanTx models
LANTxMessage(DataPacket(host, port, packet)) where DBPacket sets host and
port to None. -/
inductive OutMessage where
  | displayTx (field : ℕ) (value : DispValue)
  | lanTx (host : Option String) (port : Option String) (packet : String)
deriving DecidableEq

/-- Result of one handler call: normal return with the new state, the emitted
messages and the reply text, or divergence of the rule-scan loop, or an
uncaught Python exception. -/
inductive HandlerResult where
  | ok (s : ThermoState) (ems : List OutMessage) (reply : String)
  | diverge
  | crash
deriving DecidableEq

/-- Result of Thermostat.process_command: the reply (when sent) appears as a
final lanTx emission. -/
inductive ProcResult where
  | ok (s : ThermoState) (ems : List OutMessage)
  | diverge
  | crash
deriving DecidableEq

/-- Result of one evaluate tick (_evaluate_programming). -/
inductive EvalResult where
  | ok (s : ThermoState) (ems : List OutMessage)
  | diverge
deriving DecidableEq

/-- Wall-clock date and time fields used by _clock_control. -/
structure ClockTime where
  year : ℕ
  month : ℕ
  mday : ℕ
  weekday : ℕ
  hour : ℕ
  minute : ℕ
  second : ℕ
deriving DecidableEq

/-- Environment of one engine call: the sensor reads (none models a pigpio
error), the local time, the configured rules, the query base and radio id, and
the fuel bounding the backward rule scan (the source loop has no bound; a
result of none at every fuel shows it never exits). -/
structure Env where
  sensorTemp : Option ℚ
  dbSensorTemp : Option ℚ
  humidity : Option ℚ
  day : ℕ
  hour : ℚ
  rules : List Rule
  fuel : ℕ
  qbase : String
  thermoRadio : String
  now : ClockTime
deriving DecidableEq

/-! ## Number formatting

The source formats floats percent-style for display strings and query strings.
The exact tie-rounding of the C locale is immaterial here (the strings only
gate display refreshes and carry database payloads), so rounding is modelled
as floor of the scaled value plus one half. -/

/-- Floor of a rational, written directly on the numerator and denominator so
that it computes by kernel reduction. -/
def ratFloor (x : ℚ) : ℤ := x.num / (x.den : ℤ)

def formatFixed (decimals : ℕ) (x : ℚ) : String :=
  let ax : ℚ := if x < 0 then -x else x
  let scale : ℤ := (10 : ℤ) ^ decimals
  let n : ℤ := ratFloor (ax * (scale : ℚ) + 1/2)
  let whole : ℤ := n / scale
  let fracStr : String := toString (n % scale).natAbs
  let pad : String := String.mk (List.replicate (decimals - fracStr.length) '0')
  (if x < 0 then "-" else "") ++ toString whole ++ "." ++ pad ++ fracStr

/-- Python truthiness of an optional float: None and 0.0 are falsy. -/
def pyTruthy : Option ℚ → Bool
  | none => false
  | some v => v ≠ 0

/-! ## Thermostat engine (thermostat.py) -/

/-- Thermostat._set_thermo_status: no-op when the power flag already holds,
otherwise flip it and emit the PROGRAM_BTN display update (the GPIO write is
commented out in the source). -/
def setThermoStatus (s : ThermoState) (powerStatus : Bool) :
    ThermoState × List OutMessage :=
  if s.thermo_on ≠ powerStatus then
    ({ s with thermo_on := powerStatus },
     [OutMessage.displayTx PROGRAM_BTN
        (DispValue.nat (if powerStatus = THERMOSTAT_ON then BTN_ON else BTN_OFF))])
  else (s, [])

/-- Thermostat._set_relay_status: no-op when the relay flag already holds,
otherwise flip it, write the GPIO pin (out of scope) and emit the RELAY_LED
display update. -/
def setRelayStatus (s : ThermoState) (relayStatus : Bool) :
    ThermoState × List OutMessage :=
  if s.relay_on ≠ relayStatus then
    ({ s with relay_on := relayStatus },
     [OutMessage.displayTx RELAY_LED
        (DispValue.nat (if relayStatus = RELAY_ON then LED_ON else LED_OFF))])
  else (s, [])

/-- Thermostat._rule_applies: the hour must have passed the rule threshold and
the day selector must cover the weekday. -/
def ruleApplies (rule : Rule) (weekday : ℕ) (hour : ℚ) : Bool :=
  if rule.time ≤ hour then
    if rule.day = EVERYDAY then true
    else if weekday = rule.day then true
    else if rule.day = WEEKDAYS ∧ weekday ≤ FRIDAY then true
    else if rule.day = WEEKENDS ∧ SATURDAY ≤ weekday then true
    else false
  else false

/-- One pass of the inner for-loop of _evaluate_programming over the rule
list: the first rule that applies is returned. -/
def scanPass : List Rule → ℕ → ℚ → Option Rule
  | [], _, _ => none
  | r :: rest, weekday, hour =>
      if ruleApplies r weekday hour then some r else scanPass rest weekday hour

/-- Day decrement of the rule scan: Monday wraps to Sunday. -/
def prevDay (d : ℕ) : ℕ := if d = MONDAY then SUNDAY else d - 1

/-- The while-loop of _evaluate_programming searching backward through time:
on a failed pass the day is decremented and 24 hours are added.  The source
loop is unbounded; here it carries fuel, and a result of none for every fuel
value means the source loop never terminates. -/
def findRuleLoop : List Rule → ℕ → ℚ → ℕ → Option Rule
  | _, _, _, 0 => none
  | rules, weekday, hour, Nat.succ fuel =>
      match scanPass rules weekday hour with
      | some r => some r
      | none => findRuleLoop rules (prevDay weekday) (hour + 24) fuel

/-- Thermostat._create_request: query base, then radio_id, then one key=value
pair per sensor entry (Python 2 dict iteration order is modelled as the
insertion order used when the dict is built). -/
def createThermoRequest (qbase radio : String) (data : List (String × ℚ)) :
    String :=
  data.foldl (fun acc kv => acc ++ "&" ++ kv.1 ++ "=" ++ formatFixed 6 kv.2)
    (qbase ++ "radio_id=" ++ radio)

/-- Thermostat._update_database: when called with the ABSOLUTE_ZERO default
the temperature is read again (dbSensorTemp); a pigpio error there skips the
whole update, a humidity error only drops that key.  Emits the LANTxMessage
carrying the DBPacket. -/
def updateDatabase (s : ThermoState) (env : Env) (temperature : ℚ) :
    List OutMessage :=
  match (if temperature = ABSOLUTE_ZERO then env.dbSensorTemp
         else some temperature) with
  | none => []
  | some curTemp =>
    let data : List (String × ℚ) :=
      [("temperature", curTemp),
       ("thermo_on", if s.thermo_on then 1 else 0),
       ("heating_on", if s.relay_on then 1 else 0)]
    let data := if s.override_on then data ++ [("override", s.setpoint)] else data
    let data := match env.humidity with
      | some h => data ++ [("humidity", h)]
      | none => data
    [OutMessage.lanTx none none (createThermoRequest env.qbase env.thermoRadio data)]

/-- Temperature checks section of _evaluate_programming: limit overrides,
then override-mode hysteresis, then rule-mode hysteresis, else nothing.
Returns the state, the emitted display messages and the update_db flag, or
none when the rule scan exhausts its fuel. -/
def temperatureChecks (s : ThermoState) (env : Env) (t : ℚ) (force : Bool) :
    Option (ThermoState × List OutMessage × Bool) :=
  if t < MIN_TEMPERATURE then
    if s.relay_on = false then
      let p := setRelayStatus s RELAY_ON
      some (p.1, p.2, true)
    else some (s, [], force)
  else if t > MAX_TEMPERATURE then
    if s.relay_on = true then
      let p := setRelayStatus s RELAY_OFF
      some (p.1, p.2, true)
    else some (s, [], force)
  else if s.override_on = true then
    if s.relay_on = true ∧ s.setpoint + TEMPERATURE_BUFFER < t then
      let p := setRelayStatus s RELAY_OFF
      some (p.1, p.2, true)
    else if s.relay_on = false ∧ t < s.setpoint - TEMPERATURE_BUFFER then
      let p := setRelayStatus s RELAY_ON
      some (p.1, p.2, true)
    else some (s, [], force)
  else if s.thermo_on = true then
    match findRuleLoop env.rules env.day env.hour env.fuel with
    | none => none
    | some r =>
      let q :=
        if s.relay_on = true ∧ r.temperature + TEMPERATURE_BUFFER < t then
          let p := setRelayStatus s RELAY_OFF
          (p.1, p.2, true)
        else if s.relay_on = false ∧ t < r.temperature - TEMPERATURE_BUFFER then
          let p := setRelayStatus s RELAY_ON
          (p.1, p.2, true)
        else (s, [], force)
      some ({ q.1 with setpoint := r.temperature }, q.2.1, q.2.2)
  else some (s, [], force)

/-- Thermostat._evaluate_programming: a sensor failure skips the whole tick;
otherwise store the temperature, refresh the indoor display string when it
changed, run the temperature checks, send the database update when the relay
changed or the update was forced, and refresh the setpoint display string
when it changed.  Writing the cached display strings unconditionally is
equivalent to the guarded source assignment since the written value equals
the old one exactly when the guard fails. -/
def evaluateProgramming (s0 : ThermoState) (env : Env) (force : Bool) :
    EvalResult :=
  match env.sensorTemp with
  | none => EvalResult.ok s0 []
  | some t =>
    let s1 : ThermoState := { s0 with temperature := t }
    let tempStr := formatFixed 1 t
    let dispTemp : List OutMessage :=
      if s1.indoor_temp_str ≠ tempStr then
        [OutMessage.displayTx INSIDE_TEMP (DispValue.str tempStr)]
      else []
    let s2 : ThermoState := { s1 with indoor_temp_str := tempStr }
    match temperatureChecks s2 env t force with
    | none => EvalResult.diverge
    | some (s3, e3, updateDb) =>
      let dbEms := if updateDb then updateDatabase s3 env t else []
      let spStr := "Setpoint: " ++ formatFixed 1 s3.setpoint
      let spEms : List OutMessage :=
        if s3.setpoint_str ≠ spStr then
          [OutMessage.displayTx SETPOINT_TEMP (DispValue.str spStr)]
        else []
      let s4 : ThermoState := { s3 with setpoint_str := spStr }
      EvalResult.ok s4 (dispTemp ++ e3 ++ dbEms ++ spEms)

/-- Thermostat._update_thermo_status: subcommand STATUS_ON powers on and
re-evaluates; any other subcommand powers off, passes RELAY_ON (the boolean
True) to _set_relay_status exactly as source line 258 does, and updates the
database.  Reply is always TS:ACK. -/
def updateThermoStatus (s : ThermoState) (env : Env) (sub : Option ℕ) :
    HandlerResult :=
  if sub = some STATUS_ON then
    let p := setThermoStatus s THERMOSTAT_ON
    match evaluateProgramming p.1 env true with
    | EvalResult.ok s2 e2 => HandlerResult.ok s2 (p.2 ++ e2) "TS:ACK"
    | EvalResult.diverge => HandlerResult.diverge
  else
    let p := setThermoStatus s THERMOSTAT_OFF
    let q := setRelayStatus p.1 RELAY_ON
    let e3 := updateDatabase q.1 env ABSOLUTE_ZERO
    HandlerResult.ok q.1 (p.2 ++ q.2 ++ e3) "TS:ACK"

/-- Thermostat._update_override: a no-op NACK when the thermostat power is
off; otherwise set or clear the override (the OFF path updates the remembered
override setpoint only when the data field is truthy), refresh the display
when the command did not come from it, and force a re-evaluation.  An ON
subcommand whose data field is None would store None into the setpoint and
feed it to arithmetic later; that unreachable-from-the-decoder corner is
modelled as a crash. -/
def updateOverride (s : ThermoState) (env : Env) (sub : Option ℕ)
    (d : Option ℚ) (host : String) : HandlerResult :=
  if s.thermo_on then
    let stage : Option (ThermoState × ℕ) :=
      if sub = some STATUS_ON then
        match d with
        | some v =>
            some ({ s with override_on := true, override_temp := v, setpoint := v },
                  BTN_ON)
        | none => none
      else
        let s1 : ThermoState := { s with override_on := false }
        some ((if pyTruthy d then { s1 with override_temp := d.getD 0 } else s1),
              BTN_OFF)
    match stage with
    | none => HandlerResult.crash
    | some (s1, btn) =>
      let dispEms : List OutMessage :=
        if host ≠ "DISPLAY" then
          [OutMessage.displayTx OVER_BTN (DispValue.nat btn),
           OutMessage.displayTx OVER_SCALE (DispValue.q s1.override_temp)]
        else []
      match evaluateProgramming s1 env true with
      | EvalResult.ok s2 e2 => HandlerResult.ok s2 (dispEms ++ e2) "PO:ACK"
      | EvalResult.diverge => HandlerResult.diverge
  else HandlerResult.ok s [] "PO:NACK"

/-- Thermostat._return_status: the ST reply in fixed field order. -/
def returnStatus (s : ThermoState) : String :=
  "ST:" ++ (if s.thermo_on then "ON:" else "OFF:")
    ++ (if s.relay_on then "ON:" else "OFF:")
    ++ formatFixed 2 s.temperature ++ ":"
    ++ formatFixed 2 s.setpoint ++ ":"
    ++ (if s.override_on then "ON" else "OFF")

/-- Thermostat._clock_control: a GET subcommand returns the current date and
time, anything else is a CR:NACK. -/
def clockControl (c : ClockTime) (sub : Option ℕ) : String :=
  if sub = some STATUS_GET then
    "CR:GET:" ++ toString c.year ++ ":" ++ toString c.month ++ ":"
      ++ toString c.mday ++ ":" ++ toString c.weekday ++ ":"
      ++ toString c.hour ++ ":" ++ toString c.minute ++ ":" ++ toString c.second
  else "CR:NACK"

/-- Thermostat._force_shutdown: power off, pass RELAY_ON to the relay setter
as source line 270 does, update the database and power down the panel LED. -/
def forceShutdown (s : ThermoState) (env : Env) :
    ThermoState × List OutMessage :=
  let p := setThermoStatus s THERMOSTAT_OFF
  let q := setRelayStatus p.1 RELAY_ON
  let e3 := updateDatabase q.1 env ABSOLUTE_ZERO
  (q.1, p.2 ++ q.2 ++ e3
    ++ [OutMessage.displayTx POWER_LED (DispValue.nat LED_OFF)])

/-- Plumbing of process_command: a reply is sent back over the LAN unless the
command originated from the display. -/
def wrapReply (host port : String) : HandlerResult → ProcResult
  | HandlerResult.ok s ems reply =>
      if host ≠ "DISPLAY" then
        ProcResult.ok s (ems ++ [OutMessage.lanTx (some host) (some port) reply])
      else ProcResult.ok s ems
  | HandlerResult.diverge => ProcResult.diverge
  | HandlerResult.crash => ProcResult.crash

/-- Thermostat.process_command on a Command packet.  The CMD_RULE_CHANGE
branch evaluates Packet.Host and Packet.Port, but messaging.DataPacket only
defines the lowercase attributes host and port, so the branch raises
AttributeError: it is modelled as a crash.  The shutdown kill-timer is outside
this scope; an unknown command code only logs and sends no response. -/
def processCommand (s : ThermoState) (env : Env) (cmd : Command)
    (host port : String) : ProcResult :=
  if cmd.command = CMD_THERMO_POWER then
    wrapReply host port (updateThermoStatus s env cmd.subcommand)
  else if cmd.command = CMD_OVERRIDE then
    wrapReply host port (updateOverride s env cmd.subcommand cmd.data host)
  else if cmd.command = CMD_RULE_CHANGE then
    ProcResult.crash
  else if cmd.command = CMD_TIME_REQUEST then
    wrapReply host port (HandlerResult.ok s [] (clockControl env.now cmd.subcommand))
  else if cmd.command = CMD_STATUS then
    wrapReply host port (HandlerResult.ok s [] (returnStatus s))
  else if cmd.command = CMD_SHUTDOWN then
    let p := forceShutdown s env
    wrapReply host port (HandlerResult.ok p.1 p.2 "XX:ACK")
  else ProcResult.ok s []

/-! ## LAN text command decoding (lan_network.py _handle_command) -/

/-- Outcome of LANNetwork._handle_command on one frame: forward a Command to
the thermostat (ThermostatTxMessage with the correlation id as port), send a
NACK reply directly (LANTxMessage), or raise an uncaught exception
(IndexError on a missing token, ValueError on a bad float). -/
inductive LanResult where
  | thermoMsg (host : String) (corr : String) (cmd : Command)
  | lanReply (host : String) (corr : String) (reply : String)
  | crash
deriving DecidableEq

/-- Model of the Python float() constructor restricted to plain decimal
literals with an optional sign, which is the only shape the protocol carries;
anything else (and anything float() itself rejects, like MAYBE) is none and
raises ValueError at the call site. -/
def pyFloat (str : String) : Option ℚ :=
  let signed : ℚ × List Char :=
    match str.data with
    | '-' :: r => (-1, r)
    | '+' :: r => (1, r)
    | r => (1, r)
  let digitsVal : List Char → ℚ :=
    fun l => ((l.foldl (fun a c => 10 * a + (c.toNat - 48)) 0 : ℕ) : ℚ)
  match signed.2.splitOn '.' with
  | [ip] =>
      if ip ≠ [] ∧ ip.all Char.isDigit then some (signed.1 * digitsVal ip)
      else none
  | [ip, fp] =>
      if (ip ≠ [] ∨ fp ≠ []) ∧ ip.all Char.isDigit ∧ fp.all Char.isDigit then
        some (signed.1 * (digitsVal ip
          + digitsVal fp / (((10 : ℤ) ^ fp.length : ℤ) : ℚ)))
      else none
  | _ => none

/-- Body of _handle_command after the colon split: t0 is tokens[0] (the
correlation id) and rest holds tokens[1] onward.  Reading a token that is not
there is the source IndexError, a failed float() the source ValueError. -/
def handleTokens (host t0 : String) (rest : List String) : LanResult :=
  match rest.get? 0 with
  | none => LanResult.crash
  | some op =>
    if op = "TS" then
      match rest.get? 1 with
      | none => LanResult.crash
      | some t2 =>
        if t2 = "ON" then
          LanResult.thermoMsg host t0 ⟨CMD_THERMO_POWER, some STATUS_ON, none⟩
        else if t2 = "OFF" then
          LanResult.thermoMsg host t0 ⟨CMD_THERMO_POWER, some STATUS_OFF, none⟩
        else LanResult.lanReply host t0 (op ++ ":NACK")
    else if op = "PO" then
      match rest.get? 1 with
      | none => LanResult.crash
      | some t2 =>
        if t2 = "ON" then
          match rest.get? 2 with
          | none => LanResult.crash
          | some t3 =>
            match pyFloat t3 with
            | none => LanResult.crash
            | some v =>
                LanResult.thermoMsg host t0 ⟨CMD_OVERRIDE, some STATUS_ON, some v⟩
        else if t2 = "OFF" then
          if h4 : 2 < rest.length then
            match pyFloat (rest.get ⟨2, h4⟩) with
            | none => LanResult.crash
            | some v =>
                LanResult.thermoMsg host t0 ⟨CMD_OVERRIDE, some STATUS_OFF, some v⟩
          else LanResult.thermoMsg host t0 ⟨CMD_OVERRIDE, some STATUS_OFF, none⟩
        else LanResult.lanReply host t0 (op ++ ":NACK")
    else if op = "TR" then
      LanResult.lanReply host t0 (op ++ ":NACK")
    else if op = "CR" then
      match rest.get? 1 with
      | none => LanResult.crash
      | some t2 =>
        if t2 = "GET" then
          LanResult.thermoMsg host t0 ⟨CMD_TIME_REQUEST, some STATUS_GET, none⟩
        else LanResult.lanReply host t0 (op ++ ":NACK")
    else if op = "ST" then
      LanResult.thermoMsg host t0 ⟨CMD_STATUS, none, none⟩
    else if op = "XX" then
      LanResult.thermoMsg host t0 ⟨CMD_SHUTDOWN, none, none⟩
    else
      LanResult.lanReply host t0 (if op ≠ "" then op ++ ":NACK" else "NACK")

/-- Python str.split on the colon separator, written on the character list
so that it computes by kernel reduction; it always returns at least one
piece. -/
def splitColon (s : String) : List String :=
  (s.data.splitOn ':').map List.asString

/-- LANNetwork._handle_command: split the frame on colons and dispatch.  The
split never returns an empty list, so the first case is vacuous. -/
def handleLanCommand (host raw : String) : LanResult :=
  match splitColon raw with
  | [] => LanResult.crash
  | t0 :: rest => handleTokens host t0 rest

/-! ## Radio binary sensor-frame decoding (xbee_network.py _create_request) -/

def TEMPERATURE_CODE : ℕ := 1
def LUMINOSITY_CODE : ℕ := 2
def PRESSURE_CODE : ℕ := 3
def HUMIDITY_CODE : ℕ := 4
def POWER_CODE : ℕ := 5
def LUX_CODE : ℕ := 6
def HEATING_CODE : ℕ := 7
def THERMOSTAT_CODE : ℕ := 8
def TEMP_12BYTE_CODE : ℕ := 9
def BATTERY_SOC_CODE : ℕ := 10
def OVERRIDE_CODE : ℕ := 11

/-- Key written to the query string for each recognized type byte; none for
an unrecognized byte, which the source skips with a log entry (code 9 is
declared but has no branch, so it is unrecognized too). -/
def sensorLabel (typeByte : ℕ) : Option String :=
  if typeByte = TEMPERATURE_CODE then some "temperature"
  else if typeByte = LUMINOSITY_CODE then some "luminosity"
  else if typeByte = PRESSURE_CODE then some "pressure"
  else if typeByte = HUMIDITY_CODE then some "humidity"
  else if typeByte = POWER_CODE then some "power"
  else if typeByte = LUX_CODE then some "luminosity_lux"
  else if typeByte = HEATING_CODE then some "heating_on"
  else if typeByte = THERMOSTAT_CODE then some "thermo_on"
  else if typeByte = BATTERY_SOC_CODE then some "battery_soc"
  else if typeByte = OVERRIDE_CODE then some "override"
  else none

/-- Outcome of _create_request: the empty-string length error, a struct.error
raised by unpacking a slice that is not 4 bytes, or the decoded records.  A
sample keeps the 4 raw little-endian float bytes; the bit-level float value
never matters to the protocol properties. -/
inductive XBeeResult where
  | lengthError
  | structError
  | ok (samples : List (String × List ℕ))
deriving DecidableEq

/-- The record loop of _create_request: record i has its type byte at index
5*i+1 and its float taken from the Python slice rf_data[5*i+2 : 5*i+7], which
clamps at the end of the payload; struct.unpack requires exactly 4 bytes and
raises struct.error (none) otherwise.  k counts the records still to do. -/
def decodeRecords (rfData : List ℕ) : ℕ → ℕ → Option (List (String × List ℕ))
  | _, 0 => some []
  | i, Nat.succ k =>
    match sensorLabel (rfData.getD (5 * i + 1) 0) with
    | none => decodeRecords rfData (i + 1) k
    | some label =>
      let slice := (rfData.drop (5 * i + 2)).take 5
      if slice.length = 4 then
        match decodeRecords rfData (i + 1) k with
        | some tail => some ((label, slice) :: tail)
        | none => none
      else none

/-- XBeeNetwork._create_request restricted to its record decoding: a payload
whose length minus one is not divisible by five (Python modulo on the possibly
negative value) is a frame-fatal length error, otherwise the records are
walked in order. -/
def createRequest (rfData : List ℕ) : XBeeResult :=
  if ((rfData.length : ℤ) - 1) % 5 ≠ 0 then XBeeResult.lengthError
  else
    match decodeRecords rfData 0 ((rfData.length - 1) / 5) with
    | some samples => XBeeResult.ok samples
    | none => XBeeResult.structError

/-! ## Durable queue (local_stores.py LocalStorage) -/

/-- The sqlite transmissions table: rows of INTEGER PRIMARY KEY and TEXT. -/
structure LocalStorage where
  entries : List (ℕ × String)
deriving DecidableEq

def LocalStorage.empty : LocalStorage := ⟨[]⟩

/-- Largest rowid in the table, 0 when empty. -/
def maxId (l : List (ℕ × String)) : ℕ := l.foldl (fun a e => max a e.1) 0

/-- LocalStorage.push: INSERT INTO transmissions VALUES(NULL, msg); sqlite
assigns the NULL INTEGER PRIMARY KEY as one more than the largest existing
rowid (1 for an empty table). -/
def LocalStorage.push (st : LocalStorage) (msg : String) : LocalStorage :=
  ⟨st.entries ++ [(maxId st.entries + 1, msg)]⟩

/-- SELECT * FROM transmissions ORDER BY id LIMIT 1: the row with the least
id, none when the table is empty. -/
def minIdEntry : List (ℕ × String) → Option (ℕ × String)
  | [] => none
  | e :: es =>
    match minIdEntry es with
    | none => some e
    | some m => some (if e.1 ≤ m.1 then e else m)

/-- LocalStorage.pop: fetch the oldest row and DELETE it by id, returning the
row (id, message) or none on an empty table.  The deletion-failure path is a
reported sqlite error outside this model. -/
def LocalStorage.pop (st : LocalStorage) :
    Option (ℕ × String) × LocalStorage :=
  match minIdEntry st.entries with
  | none => (none, st)
  | some e => (some e, ⟨st.entries.filter (fun x => x.1 ≠ e.1)⟩)

/-! ## Spec-side definitions and shared fixtures -/

/-- Day-selector semantics exactly as the spec words it: Everyday always
matches; Weekdays matches Mon to Fri; Weekends matches Sat to Sun; a specific
day matches exactly.  Written from the spec text, to be compared with
ruleApplies from the source. -/
def specDayMatches (ruleDay weekday : ℕ) : Prop :=
  ruleDay = EVERYDAY ∨ (ruleDay = WEEKDAYS ∧ weekday ≤ FRIDAY)
    ∨ (ruleDay = WEEKENDS ∧ SATURDAY ≤ weekday ∧ weekday ≤ SUNDAY)
    ∨ (ruleDay ≤ SUNDAY ∧ ruleDay = weekday)

/-- Relay value produced by one hysteresis step against a target setpoint,
factored out of temperatureChecks for reasoning. -/
def hystStep (relayOn : Bool) (t target : ℚ) : Bool :=
  if relayOn = true ∧ target + TEMPERATURE_BUFFER < t then false
  else if relayOn = false ∧ t < target - TEMPERATURE_BUFFER then true
  else relayOn

/-- Relay value after one terminating tick, as a function of the mode fields
of the starting state. -/
def relayNext (s : ThermoState) (env : Env) (t : ℚ) : Bool :=
  if t < MIN_TEMPERATURE then true
  else if MAX_TEMPERATURE < t then false
  else if s.override_on = true then hystStep s.relay_on t s.setpoint
  else if s.thermo_on = true then
    match findRuleLoop env.rules env.day env.hour env.fuel with
    | some r => hystStep s.relay_on t r.temperature
    | none => s.relay_on
  else s.relay_on

/-- The default rule table of config.py. -/
def sampleRules : List Rule :=
  [⟨WEEKDAYS, 23.5, 19⟩, ⟨WEEKDAYS, 16.5, 22⟩, ⟨WEEKDAYS, 8, 18⟩,
   ⟨WEEKDAYS, 6.5, 22⟩, ⟨WEEKENDS, 23.5, 19⟩, ⟨WEEKENDS, 7.5, 22⟩]

def sampleClock : ClockTime := ⟨2018, 3, 5, 0, 12, 30, 0⟩

/-- A benign environment: both sensor reads succeed at 20 degrees, Monday at
hour 12.5, the default rules, and enough fuel for any scan they need. -/
def sampleEnv : Env :=
  ⟨some 20, some 20, some 40, 0, 12.5, sampleRules, 8,
   "/db_sensor_upload.php?", "40ab9778", sampleClock⟩

/-- Power on, relay off, override off, display strings already current. -/
def sampleState : ThermoState :=
  ⟨true, false, false, 15, 18, 20, "20.0", "Setpoint: 18.0"⟩

/-- Power off. -/
def offState : ThermoState :=
  ⟨false, false, false, 15, 18, 20, "20.0", "Setpoint: 18.0"⟩

/-! ## Claim theorems -/

/-- C2: the claim requires the backward rule scan to be bounded and an
exhausted table to be a fatal configuration error.  The source loop has
neither: on the empty rule table no pass ever finds a rule, so for every
bound the search comes back empty and the unbounded source loop never exits,
and no error is raised. -/
theorem rule_scan_empty_table_never_finds (d : ℕ) (h : ℚ) (fuel : ℕ) :
    findRuleLoop [] d h fuel = none := by
  induction fuel generalizing d h with
  | zero => rfl
  | succ n ih => simpa [findRuleLoop, scanPass] using ih (prevDay d) (h + 24)

/-- C5: the claim says a RuleChange command is answered with TR:NACK and the
handler never raises.  The source branch reads Packet.Host and Packet.Port,
attributes that messaging.DataPacket does not define (they are host and
port), so process_command raises AttributeError for every RuleChange
command instead. -/
theorem rule_change_always_crashes (s : ThermoState) (env : Env)
    (sub : Option ℕ) (d : Option ℚ) (host port : String) :
    processCommand s env ⟨CMD_RULE_CHANGE, sub, d⟩ host port
      = ProcResult.crash := by
  rfl

/-- C9: durable queue FIFO behaviour.  A push into the empty store followed
by a pop returns the pushed text (as row 1); pop on the empty store returns
none; three pushes followed by three pops return the three texts in push
order, leaving the store empty. -/
theorem durable_queue_fifo :
    (∀ t : String,
      ((LocalStorage.empty.push t).pop).1 = some (1, t)) ∧
    (LocalStorage.empty.pop).1 = none ∧
    (∀ t₁ t₂ t₃ : String,
      (((LocalStorage.empty.push t₁).push t₂).push t₃).pop.1 = some (1, t₁) ∧
      ((((LocalStorage.empty.push t₁).push t₂).push t₃).pop.2).pop.1
        = some (2, t₂) ∧
      (((((LocalStorage.empty.push t₁).push t₂).push t₃).pop.2).pop.2).pop.1
        = some (3, t₃)) :=
  ⟨fun _ => rfl, rfl, fun _ _ _ => ⟨rfl, rfl, rfl⟩⟩

/-- C7: a rule applies exactly when its hour threshold has passed and its day
selector covers the weekday in the sense the spec words it (first conjunct,
comparing the source predicate with the spec-side specDayMatches); the scan
pass returns the first applying rule in list order (second conjunct); and on
the two-rule example table a query at Saturday, hour 3.0 resolves to the
Everyday rule with setpoint 19.0 on the first pass (third conjunct). -/
theorem rule_resolution_first_match (r : Rule) (d : Fin 7) (h : ℚ)
    (rules : List Rule) (wd : ℕ) (hr : ℚ) :
    (ruleApplies r d.val h = true ↔ r.time ≤ h ∧ specDayMatches r.day d.val) ∧
    scanPass rules wd hr = rules.find? (fun ru => ruleApplies ru wd hr) ∧
    findRuleLoop [⟨WEEKDAYS, 8, 18⟩, ⟨EVERYDAY, 0, 19⟩] SATURDAY 3 1
      = some ⟨EVERYDAY, 0, 19⟩ := by
  refine ⟨?_, ?_, by decide⟩
  · have hd : d.val ≤ 6 := Nat.le_of_lt_succ d.isLt
    simp only [ruleApplies, specDayMatches, EVERYDAY, WEEKDAYS, WEEKENDS,
      FRIDAY, SATURDAY, SUNDAY]
    split_ifs with h1 h2 h3 h4 h5
    all_goals simp_all
    all_goals omega
  · induction rules with
    | nil => rfl
    | cons a l ih =>
      by_cases hA : ruleApplies a wd hr = true
      all_goals simp [scanPass, List.find?, ih, hA]

/-- Below the minimum limit the temperature checks always end with the relay
on, leaving the mode fields alone. -/
lemma temperatureChecks_cold (s : ThermoState) (env : Env) (t : ℚ)
    (force : Bool) (h : t < MIN_TEMPERATURE) :
    ∃ s3 e u, temperatureChecks s env t force = some (s3, e, u) ∧
      s3.relay_on = true ∧ s3.override_on = s.override_on ∧
      s3.thermo_on = s.thermo_on ∧ s3.setpoint = s.setpoint := by
  cases hr : s.relay_on with
  | false =>
      have heq : temperatureChecks s env t force
          = some ({ s with relay_on := true },
              [OutMessage.displayTx RELAY_LED (DispValue.nat LED_ON)], true) := by
        simp [temperatureChecks, h, hr, setRelayStatus, RELAY_ON]
      exact ⟨_, _, _, heq, rfl, rfl, rfl, rfl⟩
  | true =>
      have heq : temperatureChecks s env t force = some (s, [], force) := by
        simp [temperatureChecks, h, hr]
      exact ⟨_, _, _, heq, hr, rfl, rfl, rfl⟩

/-- Above the maximum limit the temperature checks always end with the relay
off, leaving the mode fields alone. -/
lemma temperatureChecks_hot (s : ThermoState) (env : Env) (t : ℚ)
    (force : Bool) (h : MAX_TEMPERATURE < t) :
    ∃ s3 e u, temperatureChecks s env t force = some (s3, e, u) ∧
      s3.relay_on = false ∧ s3.override_on = s.override_on ∧
      s3.thermo_on = s.thermo_on ∧ s3.setpoint = s.setpoint := by
  have hnot : ¬ t < MIN_TEMPERATURE := by
    simp only [MIN_TEMPERATURE, MAX_TEMPERATURE] at *
    linarith
  cases hr : s.relay_on with
  | true =>
      have heq : temperatureChecks s env t force
          = some ({ s with relay_on := false },
              [OutMessage.displayTx RELAY_LED (DispValue.nat LED_OFF)], true) := by
        simp [temperatureChecks, h, hr, hnot, setRelayStatus, RELAY_ON, RELAY_OFF]
      exact ⟨_, _, _, heq, rfl, rfl, rfl, rfl⟩
  | false =>
      have heq : temperatureChecks s env t force = some (s, [], force) := by
        simp [temperatureChecks, h, hr, hnot]
      exact ⟨_, _, _, heq, hr, rfl, rfl, rfl⟩

/-- Unfolding of one evaluate tick from a successful sensor read and a
terminating temperature-checks stage. -/
lemma evaluateProgramming_of_tc (s : ThermoState) (env : Env) (force : Bool)
    (t : ℚ) (hT : env.sensorTemp = some t) (s3 : ThermoState)
    (e : List OutMessage) (u : Bool)
    (htc : temperatureChecks
        { s with temperature := t, indoor_temp_str := formatFixed 1 t }
        env t force = some (s3, e, u)) :
    evaluateProgramming s env force
      = EvalResult.ok
          { s3 with setpoint_str := "Setpoint: " ++ formatFixed 1 s3.setpoint }
          ((if s.indoor_temp_str ≠ formatFixed 1 t then
              [OutMessage.displayTx INSIDE_TEMP (DispValue.str (formatFixed 1 t))]
            else []) ++ e
            ++ (if u then updateDatabase s3 env t else [])
            ++ (if s3.setpoint_str ≠ "Setpoint: " ++ formatFixed 1 s3.setpoint then
                  [OutMessage.displayTx SETPOINT_TEMP
                    (DispValue.str ("Setpoint: " ++ formatFixed 1 s3.setpoint))]
                else [])) := by
  simp only [evaluateProgramming, hT, htc]

/-- C3: on a control tick with a successful sensor read, a measured
temperature below 10.0 ends the tick with the relay on and one above 25.0
ends it with the relay off, whatever the power and override state. -/
theorem evaluate_temperature_limits (s : ThermoState) (env : Env)
    (force : Bool) (t : ℚ) (hT : env.sensorTemp = some t) :
    (t < MIN_TEMPERATURE → ∃ s2 ems,
        evaluateProgramming s env force = EvalResult.ok s2 ems
          ∧ s2.relay_on = true) ∧
    (MAX_TEMPERATURE < t → ∃ s2 ems,
        evaluateProgramming s env force = EvalResult.ok s2 ems
          ∧ s2.relay_on = false) := by
  constructor
  · intro h
    obtain ⟨s3, e, u, htc, hrel, -, -, -⟩ :=
      temperatureChecks_cold
        { s with temperature := t, indoor_temp_str := formatFixed 1 t }
        env t force h
    exact ⟨_, _, evaluateProgramming_of_tc s env force t hT s3 e u htc, hrel⟩
  · intro h
    obtain ⟨s3, e, u, htc, hrel, -, -, -⟩ :=
      temperatureChecks_hot
        { s with temperature := t, indoor_temp_str := formatFixed 1 t }
        env t force h
    exact ⟨_, _, evaluateProgramming_of_tc s env force t hT s3 e u htc, hrel⟩

/-- C3 witness: a cold tick at 5 degrees with the power off ends relay-on; a
hot tick at 30 degrees ends relay-off. -/
theorem evaluate_temperature_limits_witness :
    (∃ s2 ems, evaluateProgramming offState
        { sampleEnv with sensorTemp := some 5 } false = EvalResult.ok s2 ems
        ∧ s2.relay_on = true) ∧
    (∃ s2 ems, evaluateProgramming sampleState
        { sampleEnv with sensorTemp := some 30 } false = EvalResult.ok s2 ems
        ∧ s2.relay_on = false) :=
  ⟨(evaluate_temperature_limits offState
      { sampleEnv with sensorTemp := some 5 } false 5 rfl).1 (by decide),
   (evaluate_temperature_limits sampleState
      { sampleEnv with sensorTemp := some 30 } false 30 rfl).2 (by decide)⟩

/-! ### Hysteresis machinery shared by the relay claims -/

/-- The relay setter always leaves the relay at the requested value. -/
lemma setRelayStatus_relay (s : ThermoState) (b : Bool) :
    (setRelayStatus s b).1.relay_on = b := by
  unfold setRelayStatus
  split
  · rfl
  · next hne => simpa using not_not.mp (by simpa using hne)

/-- The relay setter touches no mode field. -/
lemma setRelayStatus_keeps (s : ThermoState) (b : Bool) :
    (setRelayStatus s b).1.override_on = s.override_on ∧
    (setRelayStatus s b).1.thermo_on = s.thermo_on ∧
    (setRelayStatus s b).1.setpoint = s.setpoint := by
  unfold setRelayStatus
  split <;> exact ⟨rfl, rfl, rfl⟩

lemma hystStep_off (r : Bool) (t sp : ℚ)
    (h : r = true ∧ sp + TEMPERATURE_BUFFER < t) : hystStep r t sp = false := by
  unfold hystStep
  rw [if_pos h]

lemma hystStep_on (r : Bool) (t sp : ℚ)
    (hno : ¬ (r = true ∧ sp + TEMPERATURE_BUFFER < t))
    (h : r = false ∧ t < sp - TEMPERATURE_BUFFER) : hystStep r t sp = true := by
  unfold hystStep
  rw [if_neg hno, if_pos h]

lemma hystStep_keep (r : Bool) (t sp : ℚ)
    (h1 : ¬ (r = true ∧ sp + TEMPERATURE_BUFFER < t))
    (h2 : ¬ (r = false ∧ t < sp - TEMPERATURE_BUFFER)) : hystStep r t sp = r := by
  unfold hystStep
  rw [if_neg h1, if_neg h2]

lemma relayNext_override (s : ThermoState) (env : Env) (t : ℚ)
    (h1 : ¬ t < MIN_TEMPERATURE) (h2 : ¬ t > MAX_TEMPERATURE)
    (h3 : s.override_on = true) :
    relayNext s env t = hystStep s.relay_on t s.setpoint := by
  unfold relayNext
  rw [if_neg h1, if_neg h2, if_pos h3]

lemma relayNext_rule (s : ThermoState) (env : Env) (t : ℚ) (r : Rule)
    (h1 : ¬ t < MIN_TEMPERATURE) (h2 : ¬ t > MAX_TEMPERATURE)
    (h3 : s.override_on = false) (h4 : s.thermo_on = true)
    (hrule : findRuleLoop env.rules env.day env.hour env.fuel = some r) :
    relayNext s env t = hystStep s.relay_on t r.temperature := by
  unfold relayNext
  rw [if_neg h1, if_neg h2, if_neg (by simp [h3]), if_pos h4, hrule]

/-- A terminating temperature-checks stage keeps the mode fields, keeps the
setpoint in override mode, and drives the relay to relayNext. -/
lemma temperatureChecks_mode (s : ThermoState) (env : Env) (t : ℚ) (f : Bool)
    (s3 : ThermoState) (e : List OutMessage) (u : Bool)
    (h : temperatureChecks s env t f = some (s3, e, u)) :
    s3.override_on = s.override_on ∧ s3.thermo_on = s.thermo_on ∧
    s3.relay_on = relayNext s env t ∧
    (s.override_on = true → s3.setpoint = s.setpoint) := by
  simp only [temperatureChecks] at h
  split at h
  case isTrue h1 =>
    split at h
    all_goals
      simp only [Option.some.injEq, Prod.mk.injEq] at h
    all_goals
      obtain ⟨rfl, -, -⟩ := h
    all_goals
      simp_all [setRelayStatus, relayNext, RELAY_ON, RELAY_OFF]
  case isFalse h1 =>
    split at h
    case isTrue h2 =>
      split at h
      all_goals
        simp only [Option.some.injEq, Prod.mk.injEq] at h
      all_goals
        obtain ⟨rfl, -, -⟩ := h
      all_goals
        simp_all [setRelayStatus, relayNext, RELAY_ON, RELAY_OFF]
    case isFalse h2 =>
      split at h
      case isTrue h3 =>
        split at h
        case isTrue h4 =>
          simp only [Option.some.injEq, Prod.mk.injEq] at h
          obtain ⟨rfl, -, -⟩ := h
          obtain ⟨k1, k2, k3⟩ := setRelayStatus_keeps s RELAY_OFF
          refine ⟨k1, k2, ?_, fun _ => k3⟩
          rw [setRelayStatus_relay, relayNext_override s env t h1 h2 h3,
            hystStep_off s.relay_on t s.setpoint h4, RELAY_OFF]
        case isFalse h4 =>
          split at h
          case isTrue h5 =>
            simp only [Option.some.injEq, Prod.mk.injEq] at h
            obtain ⟨rfl, -, -⟩ := h
            obtain ⟨k1, k2, k3⟩ := setRelayStatus_keeps s RELAY_ON
            refine ⟨k1, k2, ?_, fun _ => k3⟩
            rw [setRelayStatus_relay, relayNext_override s env t h1 h2 h3,
              hystStep_on s.relay_on t s.setpoint h4 h5, RELAY_ON]
          case isFalse h5 =>
            simp only [Option.some.injEq, Prod.mk.injEq] at h
            obtain ⟨rfl, -, -⟩ := h
            refine ⟨rfl, rfl, ?_, fun _ => rfl⟩
            rw [relayNext_override s env t h1 h2 h3,
              hystStep_keep s.relay_on t s.setpoint h4 h5]
      case isFalse h3 =>
        have h3f : s.override_on = false := by
          revert h3
          cases s.override_on <;> simp
        split at h
        case isTrue h4 =>
          split at h
          case h_1 => exact absurd h (by simp)
          case h_2 r hrule =>
            split at h
            case isTrue h5 =>
              simp only [Option.some.injEq, Prod.mk.injEq] at h
              obtain ⟨rfl, -, -⟩ := h
              obtain ⟨k1, k2, -⟩ := setRelayStatus_keeps s RELAY_OFF
              refine ⟨k1, k2, ?_, fun hov => absurd (h3f ▸ hov) (by simp)⟩
              rw [setRelayStatus_relay, relayNext_rule s env t r h1 h2 h3f h4 hrule,
                hystStep_off s.relay_on t r.temperature h5, RELAY_OFF]
            case isFalse h5 =>
              split at h
              case isTrue h6 =>
                simp only [Option.some.injEq, Prod.mk.injEq] at h
                obtain ⟨rfl, -, -⟩ := h
                obtain ⟨k1, k2, -⟩ := setRelayStatus_keeps s RELAY_ON
                refine ⟨k1, k2, ?_, fun hov => absurd (h3f ▸ hov) (by simp)⟩
                rw [setRelayStatus_relay, relayNext_rule s env t r h1 h2 h3f h4 hrule,
                  hystStep_on s.relay_on t r.temperature h5 h6, RELAY_ON]
              case isFalse h6 =>
                simp only [Option.some.injEq, Prod.mk.injEq] at h
                obtain ⟨rfl, -, -⟩ := h
                refine ⟨rfl, rfl, ?_, fun hov => absurd (h3f ▸ hov) (by simp)⟩
                rw [relayNext_rule s env t r h1 h2 h3f h4 hrule,
                  hystStep_keep s.relay_on t r.temperature h5 h6]
        case isFalse h4 =>
          simp only [Option.some.injEq, Prod.mk.injEq] at h
          obtain ⟨rfl, -, -⟩ := h
          refine ⟨rfl, rfl, ?_, fun _ => rfl⟩
          unfold relayNext
          rw [if_neg h1, if_neg h2, if_neg (by simp [h3f]), if_neg h4]

/-- The temperature checks diverge exactly in rule mode with an exhausted
rule search; the condition does not involve the relay or the setpoint. -/
lemma temperatureChecks_none_iff (s : ThermoState) (env : Env) (t : ℚ)
    (f : Bool) :
    temperatureChecks s env t f = none ↔
      ¬ t < MIN_TEMPERATURE ∧ ¬ t > MAX_TEMPERATURE ∧ s.override_on = false ∧
      s.thermo_on = true ∧
      findRuleLoop env.rules env.day env.hour env.fuel = none := by
  simp only [temperatureChecks]
  split_ifs with h1 h2 h3 h4 h5 h6 h7 h8 <;>
    try simp_all
  all_goals
    cases hrule : findRuleLoop env.rules env.day env.hour env.fuel <;>
      simp_all

/-- One hysteresis step is idempotent thanks to the dead band. -/
lemma hystStep_idem (r : Bool) (t sp : ℚ) :
    hystStep (hystStep r t sp) t sp = hystStep r t sp := by
  have hB : (0 : ℚ) ≤ TEMPERATURE_BUFFER := by norm_num [TEMPERATURE_BUFFER]
  unfold hystStep
  split_ifs <;> simp_all <;> linarith

/-- If a state already carries the relay value of one tick and agrees on the
mode fields, the next tick computes the same relay value. -/
lemma relayNext_idem (s s' : ThermoState) (env : Env) (t : ℚ)
    (hov : s'.override_on = s.override_on) (hth : s'.thermo_on = s.thermo_on)
    (hsp : s.override_on = true → s'.setpoint = s.setpoint)
    (hr : s'.relay_on = relayNext s env t) :
    relayNext s' env t = s'.relay_on := by
  by_cases h1 : t < MIN_TEMPERATURE
  · rw [relayNext, if_pos h1] at hr ⊢
    exact hr.symm
  by_cases h2 : t > MAX_TEMPERATURE
  · rw [relayNext, if_neg h1, if_pos h2] at hr ⊢
    exact hr.symm
  by_cases h3 : s.override_on = true
  · rw [relayNext_override s env t h1 h2 h3] at hr
    rw [relayNext_override s' env t h1 h2 (hov.trans h3), hsp h3, hr]
    exact hystStep_idem s.relay_on t s.setpoint
  · have h3f : s.override_on = false := by
      revert h3
      cases s.override_on <;> simp
    by_cases h4 : s.thermo_on = true
    · cases hrule : findRuleLoop env.rules env.day env.hour env.fuel with
      | none =>
        rw [relayNext, if_neg h1, if_neg h2, if_neg (by simp [h3f]), if_pos h4,
          hrule] at hr
        rw [relayNext, if_neg h1, if_neg h2, if_neg (by simp [hov, h3f]),
          if_pos (hth.trans h4), hrule]
      | some r =>
        rw [relayNext_rule s env t r h1 h2 h3f h4 hrule] at hr
        rw [relayNext_rule s' env t r h1 h2 (hov.trans h3f) (hth.trans h4) hrule,
          hr]
        exact hystStep_idem s.relay_on t r.temperature
    · have h4f : s.thermo_on = false := by
        revert h4
        cases s.thermo_on <;> simp
      rw [relayNext, if_neg h1, if_neg h2, if_neg (by simp [h3f]),
        if_neg (by simp [h4f])] at hr
      rw [relayNext, if_neg h1, if_neg h2, if_neg (by simp [hov, h3f]),
        if_neg (by simp [hth, h4f])]

/-- C8: hysteresis idempotence.  If one evaluate tick returns normally, a
second tick from the returned state under the same environment (same
measured temperature, same clock, same rules) also returns normally and
leaves the relay exactly where the first tick put it: with temperature and
mode unchanged the relay is never toggled twice in a row, thanks to the 0.15
dead band. -/
theorem evaluate_hysteresis_idempotent (s : ThermoState) (env : Env)
    (f1 f2 : Bool) (s1 : ThermoState) (e1 : List OutMessage)
    (h : evaluateProgramming s env f1 = EvalResult.ok s1 e1) :
    ∃ s2 e2, evaluateProgramming s1 env f2 = EvalResult.ok s2 e2 ∧
      s2.relay_on = s1.relay_on := by
  cases hT : env.sensorTemp with
  | none =>
    rw [show evaluateProgramming s env f1 = EvalResult.ok s [] by
      simp only [evaluateProgramming, hT]] at h
    simp only [EvalResult.ok.injEq] at h
    obtain ⟨rfl, -⟩ := h
    exact ⟨s, [], by simp only [evaluateProgramming, hT], rfl⟩
  | some t =>
    rcases htc : temperatureChecks
        { s with temperature := t, indoor_temp_str := formatFixed 1 t }
        env t f1 with - | ⟨s3, e3, u⟩
    · rw [show evaluateProgramming s env f1 = EvalResult.diverge by
        simp only [evaluateProgramming, hT, htc]] at h
      exact absurd h (by simp)
    · rw [evaluateProgramming_of_tc s env f1 t hT s3 e3 u htc] at h
      simp only [EvalResult.ok.injEq] at h
      obtain ⟨h1eq, -⟩ := h
      obtain ⟨m1, m2, m3, m4⟩ := temperatureChecks_mode _ env t f1 s3 e3 u htc
      rcases htc2 : temperatureChecks
          { s1 with temperature := t, indoor_temp_str := formatFixed 1 t }
          env t f2 with - | ⟨s4, e4, u2⟩
      · exfalso
        obtain ⟨c1, c2, c3, c4, c5⟩ :=
          (temperatureChecks_none_iff _ env t f2).mp htc2
        have c3' : s3.override_on = false := by
          rw [← h1eq] at c3
          exact c3
        have c4' : s3.thermo_on = true := by
          rw [← h1eq] at c4
          exact c4
        have : temperatureChecks
            { s with temperature := t, indoor_temp_str := formatFixed 1 t }
            env t f1 = none :=
          (temperatureChecks_none_iff _ env t f1).mpr
            ⟨c1, c2, m1 ▸ c3', m2 ▸ c4', c5⟩
        rw [this] at htc
        exact absurd htc (by simp)
      · obtain ⟨n1, n2, n3, n4⟩ :=
          temperatureChecks_mode _ env t f2 s4 e4 u2 htc2
        have hov : ({ s1 with temperature := t, indoor_temp_str := formatFixed 1 t } : ThermoState).override_on = ({ s with temperature := t, indoor_temp_str := formatFixed 1 t } : ThermoState).override_on := by
          rw [← h1eq]
          exact m1
        have hth : ({ s1 with temperature := t, indoor_temp_str := formatFixed 1 t } : ThermoState).thermo_on = ({ s with temperature := t, indoor_temp_str := formatFixed 1 t } : ThermoState).thermo_on := by
          rw [← h1eq]
          exact m2
        have hsp : ({ s with temperature := t, indoor_temp_str := formatFixed 1 t } : ThermoState).override_on = true → ({ s1 with temperature := t, indoor_temp_str := formatFixed 1 t } : ThermoState).setpoint = ({ s with temperature := t, indoor_temp_str := formatFixed 1 t } : ThermoState).setpoint := by
          intro hx
          rw [← h1eq]
          exact m4 hx
        have hr : ({ s1 with temperature := t, indoor_temp_str := formatFixed 1 t } : ThermoState).relay_on = relayNext { s with temperature := t, indoor_temp_str := formatFixed 1 t } env t := by
          rw [← h1eq]
          exact m3
        have hidem := relayNext_idem
          { s with temperature := t, indoor_temp_str := formatFixed 1 t }
          { s1 with temperature := t, indoor_temp_str := formatFixed 1 t }
          env t hov hth hsp hr
        refine ⟨_, _, evaluateProgramming_of_tc s1 env f2 t hT s4 e4 u2 htc2, ?_⟩
        show s4.relay_on = s1.relay_on
        rw [n3, hidem]

/-- C8 witness: under the benign environment a tick from sampleState returns
it unchanged, and the follow-up tick keeps the relay where it was. -/
theorem evaluate_hysteresis_idempotent_witness :
    ∃ s2 e2, evaluateProgramming sampleState sampleEnv false
        = EvalResult.ok s2 e2 ∧ s2.relay_on = sampleState.relay_on :=
  evaluate_hysteresis_idempotent sampleState sampleEnv false false
    sampleState [] (by decide)

/-- A normally returning evaluate tick never changes the power or override
flags. -/
lemma evaluateProgramming_keeps_mode (s : ThermoState) (env : Env) (f : Bool)
    (s' : ThermoState) (e' : List OutMessage)
    (h : evaluateProgramming s env f = EvalResult.ok s' e') :
    s'.override_on = s.override_on ∧ s'.thermo_on = s.thermo_on := by
  cases hT : env.sensorTemp with
  | none =>
    rw [show evaluateProgramming s env f = EvalResult.ok s [] by
      simp only [evaluateProgramming, hT]] at h
    simp only [EvalResult.ok.injEq] at h
    obtain ⟨rfl, -⟩ := h
    exact ⟨rfl, rfl⟩
  | some t =>
    rcases htc : temperatureChecks
        { s with temperature := t, indoor_temp_str := formatFixed 1 t }
        env t f with - | ⟨s3, e3, u⟩
    · rw [show evaluateProgramming s env f = EvalResult.diverge by
        simp only [evaluateProgramming, hT, htc]] at h
      exact absurd h (by simp)
    · rw [evaluateProgramming_of_tc s env f t hT s3 e3 u htc] at h
      simp only [EvalResult.ok.injEq] at h
      obtain ⟨h1eq, -⟩ := h
      obtain ⟨m1, m2, -, -⟩ := temperatureChecks_mode _ env t f s3 e3 u htc
      constructor
      · rw [← h1eq]
        exact m1
      · rw [← h1eq]
        exact m2

/-- C10: an Override command received while the thermostat power flag is off
is a complete no-op: the state (override flag, override setpoint, active
setpoint, relay) is returned untouched, no display or database message is
emitted, and the reply is PO:NACK.  Only with the power on does the command
take effect, and then every normal return replies PO:ACK with the override
flag set exactly when the subcommand was STATUS_ON. -/
theorem override_requires_power (s : ThermoState) (env : Env)
    (sub : Option ℕ) (d : Option ℚ) (host : String) :
    (s.thermo_on = false →
      updateOverride s env sub d host = HandlerResult.ok s [] "PO:NACK") ∧
    (s.thermo_on = true → ∀ s2 ems reply,
      updateOverride s env sub d host = HandlerResult.ok s2 ems reply →
      reply = "PO:ACK" ∧ s2.override_on = decide (sub = some STATUS_ON)) := by
  constructor
  · intro h
    simp [updateOverride, h]
  · intro h s2 ems reply hres
    simp only [updateOverride, h, if_true] at hres
    by_cases hsub : sub = some STATUS_ON
    · rw [if_pos hsub] at hres
      cases d with
      | none => simp at hres
      | some v =>
        simp only at hres
        split at hres
        next sE eE hev =>
          simp only [HandlerResult.ok.injEq] at hres
          obtain ⟨rfl, -, rfl⟩ := hres
          obtain ⟨mov, -⟩ := evaluateProgramming_keeps_mode _ env true sE eE hev
          exact ⟨rfl, by simp [hsub, mov]⟩
        next hev =>
          simp at hres
    · rw [if_neg hsub] at hres
      simp only at hres
      split at hres
      next sE eE hev =>
        simp only [HandlerResult.ok.injEq] at hres
        obtain ⟨rfl, -, rfl⟩ := hres
        obtain ⟨mov, -⟩ := evaluateProgramming_keeps_mode _ env true sE eE hev
        refine ⟨rfl, ?_⟩
        rw [mov]
        by_cases hd : pyTruthy d = true
        · simp [hd, hsub]
        · simp only [Bool.not_eq_true] at hd
          simp [hd, hsub]
      next hev =>
        simp at hres

/-- C10 witness: with the power off an Override-On command is the identity
with a PO:NACK reply; with the power on the same command is acknowledged. -/
theorem override_requires_power_witness :
    (updateOverride offState sampleEnv (some STATUS_ON) (some 21) "10.0.0.1"
      = HandlerResult.ok offState [] "PO:NACK") ∧ "PO:ACK" = "PO:ACK" := by
  constructor
  · exact (override_requires_power offState sampleEnv (some STATUS_ON)
      (some 21) "10.0.0.1").1 rfl
  · exact ((override_requires_power sampleState sampleEnv (some STATUS_ON)
      (some 21) "10.0.0.1").2 rfl
      ⟨true, true, true, 21, 21, 20, "20.0", "Setpoint: 21.0"⟩
      [OutMessage.displayTx OVER_BTN (DispValue.nat BTN_ON),
       OutMessage.displayTx OVER_SCALE (DispValue.q 21),
       OutMessage.displayTx RELAY_LED (DispValue.nat LED_ON),
       OutMessage.lanTx none none
         "/db_sensor_upload.php?radio_id=40ab9778&temperature=20.000000&thermo_on=1.000000&heating_on=1.000000&override=21.000000&humidity=40.000000",
       OutMessage.displayTx SETPOINT_TEMP (DispValue.str "Setpoint: 21.0")]
      "PO:ACK" (by decide)).1

/-- C1: a ThermoPower-Off command handled by process_command.  The claim says
the relay flag ends false (relay forced off).  At this concrete input, power
on and relay off beforehand, the handler does clear the power flag, emit the
database-upload request and reply TS:ACK, but it passes RELAY_ON (True) to
_set_relay_status — source line 258, whose own comment says open the relay —
so the relay flag ends TRUE, commanding heat on while the thermostat is off.
The emitted RELAY_LED message is LED_ON accordingly. -/
theorem thermo_power_off_turns_relay_on :
    processCommand sampleState sampleEnv
        ⟨CMD_THERMO_POWER, some STATUS_OFF, none⟩ "192.168.2.99" "1"
      = ProcResult.ok
          ⟨false, true, false, 15, 18, 20, "20.0", "Setpoint: 18.0"⟩
          [OutMessage.displayTx PROGRAM_BTN (DispValue.nat BTN_OFF),
           OutMessage.displayTx RELAY_LED (DispValue.nat LED_ON),
           OutMessage.lanTx none none
             "/db_sensor_upload.php?radio_id=40ab9778&temperature=20.000000&thermo_on=0.000000&heating_on=1.000000&humidity=40.000000",
           OutMessage.lanTx (some "192.168.2.99") (some "1") "TS:ACK"] := by
  decide

/-- C4 counterexample: the claim says a frame with a missing required
argument yields a decode error answered with a NACK reply.  The frame
7:PO:ON, an override-on with its setpoint missing, instead reads tokens
beyond the end of the split (the source IndexError on tokens[3]) and the
handler crashes: the result is neither a forwarded Command nor a NACK
reply. -/
theorem lan_decode_missing_arg_crashes :
    handleLanCommand "10.0.0.5" "7:PO:ON" = LanResult.crash := by decide

/-- C4 amended: an unknown op token is answered with op:NACK (bare NACK when
the op token is empty), a recognized op with an unrecognized subcommand
token likewise, and a successful decode forwards a Command — but a missing
required argument or an unparsable numeric argument raises an uncaught
exception (IndexError or ValueError) instead of producing a NACK.  In
particular 7:PO:ON:21.5 decodes to Command(Override, On, 21.5) and
7:PO:MAYBE is a decode error answered with PO:NACK, while 7:PO:ON,
7:PO:ON:abc and 7:TS all crash. -/
theorem lan_decode_contract (host t0 op : String) (rest : List String)
    (hop : op ∉ (["TS", "PO", "TR", "CR", "ST", "XX"] : List String)) :
    handleTokens host t0 (op :: rest)
      = LanResult.lanReply host t0
          (if op ≠ "" then op ++ ":NACK" else "NACK") ∧
    handleLanCommand host "7:PO:ON:21.5"
      = LanResult.thermoMsg host "7"
          ⟨CMD_OVERRIDE, some STATUS_ON, some (21.5 : ℚ)⟩ ∧
    handleLanCommand host "7:PO:MAYBE" = LanResult.lanReply host "7" "PO:NACK" ∧
    handleLanCommand host "7:PO:ON" = LanResult.crash ∧
    handleLanCommand host "7:PO:ON:abc" = LanResult.crash ∧
    handleLanCommand host "7:TS" = LanResult.crash := by
  refine ⟨?_, rfl, rfl, rfl, rfl, rfl⟩
  simp only [List.mem_cons, List.not_mem_nil, or_false, not_or] at hop
  obtain ⟨n1, n2, n3, n4, n5, n6⟩ := hop
  simp [handleTokens, n1, n2, n3, n4, n5, n6]

/-- C4 witness: the unknown op QQ is answered with QQ:NACK. -/
theorem lan_decode_contract_witness :
    handleTokens "10.0.0.5" "7" ["QQ", "1"]
      = LanResult.lanReply "10.0.0.5" "7" "QQ:NACK" := by
  have h := (lan_decode_contract "10.0.0.5" "7" "QQ" ["1"] (by decide)).1
  simpa using h

/-- C6 counterexample: the claim says a payload of length 11 must fail
decode entirely and yield no readings.  But 11 is 1 + 5 times 2, so the
length check passes; with an unrecognized first record (type byte 0) and a
temperature second record the decode succeeds and yields exactly one
reading. -/
theorem radio_length_eleven_decodes :
    createRequest [0, 0, 0, 0, 0, 0, 1, 9, 9, 9, 9]
      = XBeeResult.ok [("temperature", [9, 9, 9, 9])] := by decide

/-- C6 amended: a payload whose length minus one is not divisible by five is
a frame-fatal length error yielding no readings (first conjunct, and the
length-12 witness); length 11 is a valid length, not an invalid one.  A
single-record payload of length 6 decodes to exactly one sample when its
type byte is recognized and to an empty frame when not (second conjunct);
with type byte 1 and any 4 value bytes it yields exactly one temperature
sample (fourth conjunct).  But the per-record skip granularity claimed for
longer frames does not hold: a recognized record that is not the last one
reads a 5-byte slice — the source off-by-one rf_data[5i+2 : 5i+7] — and
struct.unpack raises struct.error, crashing the whole decode (third
conjunct). -/
theorem radio_decode_granularity (rfData : List ℕ)
    (hlen : ((rfData.length : ℤ) - 1) % 5 ≠ 0) (b0 t b1 b2 b3 b4 : ℕ) :
    createRequest rfData = XBeeResult.lengthError ∧
    createRequest [b0, t, b1, b2, b3, b4]
      = (match sensorLabel t with
         | some l => XBeeResult.ok [(l, [b1, b2, b3, b4])]
         | none => XBeeResult.ok []) ∧
    createRequest [0, 1, 65, 66, 67, 68, 1, 1, 1, 1, 1]
      = XBeeResult.structError ∧
    createRequest [0, 1, 65, 66, 67, 68]
      = XBeeResult.ok [("temperature", [65, 66, 67, 68])] := by
  refine ⟨?_, ?_, by decide, by decide⟩
  · unfold createRequest
    rw [if_pos hlen]
  · cases hl : sensorLabel t with
    | none => simp [createRequest, decodeRecords, hl]
    | some l => simp [createRequest, decodeRecords, hl]

/-- C6 witness: a payload of length 12 has length minus one equal to 11,
which is not divisible by five, and decode fails whole-frame. -/
theorem radio_decode_granularity_witness :
    createRequest [0, 1, 2, 3, 4, 5, 6, 7, 8, 9, 10, 11]
      = XBeeResult.lengthError :=
  (radio_decode_granularity [0, 1, 2, 3, 4, 5, 6, 7, 8, 9, 10, 11]
    (by decide) 0 0 0 0 0 0).1

end ThermoPi
